import Mathlib

/-!
Shallow embedding of the real-estate-agency backend service layer.

Identifiers (UUIDs in the source) are modelled as natural numbers, instants
(`DateTime`) as natural numbers, and `Money` as a natural number.  The current
instant, obtained through `DateTime::now()` in the source, is passed as an
explicit `now` parameter.  Storage is modelled as an explicit `Db` state; each
command additionally produces a trace of the abstract storage operations it
issues (`Select`, `Insert`, `Update`, `Lock`, `StartTransaction`, `Commit`),
so that transactional placement and atomicity can be stated about the traces.
-/

namespace Spec2Proof

/-- ID of a `User` (src/service/src/domain/user/mod.rs, modelled as `Nat`). -/
abbrev UserId := Nat

/-- ID of a `Realty` (src/service/src/domain/realty.rs, modelled as `Nat`). -/
abbrev RealtyId := Nat

/-- ID of a `Contract` (src/service/src/domain/contract/mod.rs). -/
abbrev ContractId := Nat

/-- An instant of time; `DateTime` is modelled as a `Nat` timestamp. -/
abbrev Instant := Nat

/-- Monetary amount (src/common/src/money.rs), modelled as `Nat`. -/
abbrev Money := Nat

namespace contract

/-- Status of a `Contract` (src/service/src/domain/contract/mod.rs). -/
inductive Status where
  | Active
  | Completed
  | Terminated
deriving DecidableEq, Repr

/-- Kind of a `Contract` (src/service/src/domain/contract/mod.rs,
`define_kind!`). -/
inductive Kind where
  | Rent
  | Sale
  | ManagementForRent
  | ManagementForSale
  | Employment
deriving DecidableEq, Repr

/-- Employment contract (src/service/src/domain/contract/employment.rs). -/
structure Employment where
  id : ContractId
  name : String
  description : String
  employer_id : UserId
  base_salary : Money
  created_at : Instant
  expires_at : Option Instant
  terminated_at : Option Instant
deriving DecidableEq, Repr

/-- Returns whether this `Employment` contract is active
(src/service/src/domain/contract/employment.rs): not terminated, and
`DateTime::now() < expires_at` when an expiration is set. -/
def Employment.is_active (c : Employment) (now : Instant) : Bool :=
  c.terminated_at.isNone &&
    (match c.expires_at with
     | none => true
     | some e => decide (now < e))

/-- Sale contract (src/service/src/domain/contract/sale.rs). -/
structure Sale where
  id : ContractId
  name : String
  description : String
  realty_id : RealtyId
  purchaser_id : UserId
  landlord_id : UserId
  employer_id : UserId
  price : Money
  deposit : Option Money
  created_at : Instant
  expires_at : Option Instant
  terminated_at : Option Instant
deriving DecidableEq, Repr

/-- Returns whether this `Sale` contract is active
(src/service/src/domain/contract/sale.rs). -/
def Sale.is_active (c : Sale) (now : Instant) : Bool :=
  c.terminated_at.isNone &&
    (match c.expires_at with
     | none => true
     | some e => decide (now < e))

/-- Rent contract.  Modelled from the spec: the source file
src/service/src/domain/contract/rent.rs is absent from the provided sources;
its fields are pinned by the spec ("Rent and Sale (link a Realty, purchaser,
landlord, employer, price, optional deposit)" plus the shared common fields)
and by the struct literal in src/service/src/command/create_rent_contract.rs,
and coincide with the present sibling `Sale`. -/
structure Rent where
  id : ContractId
  name : String
  description : String
  realty_id : RealtyId
  purchaser_id : UserId
  landlord_id : UserId
  employer_id : UserId
  price : Money
  deposit : Option Money
  created_at : Instant
  expires_at : Option Instant
  terminated_at : Option Instant
deriving DecidableEq, Repr

/-- Returns whether this `Rent` contract is active.  Modelled from the spec:
"Active ... means terminated_at.is_none() AND (expires_at.is_none() OR
now < expires_at)"; identical to the three present sibling implementations. -/
def Rent.is_active (c : Rent) (now : Instant) : Bool :=
  c.terminated_at.isNone &&
    (match c.expires_at with
     | none => true
     | some e => decide (now < e))

/-- Management-for-rent contract
(src/service/src/domain/contract/management_for_rent.rs). -/
structure ManagementForRent where
  id : ContractId
  name : String
  description : String
  realty_id : RealtyId
  landlord_id : UserId
  employer_id : UserId
  expected_price : Money
  expected_deposit : Option Money
  one_time_fee : Option Money
  monthly_fee : Option Money
  percent_fee : Option Nat
  is_placed : Bool
  created_at : Instant
  expires_at : Option Instant
  terminated_at : Option Instant
deriving DecidableEq, Repr

/-- Returns whether this `ManagementForRent` contract is active
(src/service/src/domain/contract/management_for_rent.rs). -/
def ManagementForRent.is_active (c : ManagementForRent) (now : Instant) :
    Bool :=
  c.terminated_at.isNone &&
    (match c.expires_at with
     | none => true
     | some e => decide (now < e))

/-- Management-for-sale contract.  Modelled from the spec: the source file
src/service/src/domain/contract/management_for_sale.rs is absent from the
provided sources; the spec says "ManagementForRent / ManagementForSale (link
a Realty, a landlord User, an employer User, pricing/fee fields, an
`is_placed` flag)", so the fields mirror the present `ManagementForRent`. -/
structure ManagementForSale where
  id : ContractId
  name : String
  description : String
  realty_id : RealtyId
  landlord_id : UserId
  employer_id : UserId
  expected_price : Money
  one_time_fee : Option Money
  monthly_fee : Option Money
  percent_fee : Option Nat
  is_placed : Bool
  created_at : Instant
  expires_at : Option Instant
  terminated_at : Option Instant
deriving DecidableEq, Repr

/-- Returns whether this `ManagementForSale` contract is active.  Modelled
from the spec's definition of Active; identical to the present siblings. -/
def ManagementForSale.is_active (c : ManagementForSale) (now : Instant) :
    Bool :=
  c.terminated_at.isNone &&
    (match c.expires_at with
     | none => true
     | some e => decide (now < e))

end contract

/-- Realty contract enum (src/service/src/domain/contract/mod.rs). -/
inductive Contract where
  | Rent (c : contract.Rent)
  | Sale (c : contract.Sale)
  | ManagementForRent (c : contract.ManagementForRent)
  | ManagementForSale (c : contract.ManagementForSale)
  | Employment (c : contract.Employment)
deriving DecidableEq, Repr

namespace Contract

/-- Returns the ID of this `Contract`
(src/service/src/domain/contract/mod.rs, `Contract::id`). -/
def id : Contract → ContractId
  | .Rent c => c.id
  | .Sale c => c.id
  | .ManagementForRent c => c.id
  | .ManagementForSale c => c.id
  | .Employment c => c.id

/-- Returns the `Kind` of this `Contract`
(src/service/src/domain/contract/mod.rs, `Contract::kind`). -/
def kind : Contract → contract.Kind
  | .Rent _ => .Rent
  | .Sale _ => .Sale
  | .ManagementForRent _ => .ManagementForRent
  | .ManagementForSale _ => .ManagementForSale
  | .Employment _ => .Employment

/-- Returns the `DateTime` when this `Contract` expires
(src/service/src/domain/contract/mod.rs, `Contract::expires_at`). -/
def expires_at : Contract → Option Instant
  | .Rent c => c.expires_at
  | .Sale c => c.expires_at
  | .ManagementForRent c => c.expires_at
  | .ManagementForSale c => c.expires_at
  | .Employment c => c.expires_at

/-- Returns the `DateTime` when this `Contract` was terminated, if it was
(src/service/src/domain/contract/mod.rs, `Contract::terminated_at`). -/
def terminated_at : Contract → Option Instant
  | .Rent c => c.terminated_at
  | .Sale c => c.terminated_at
  | .ManagementForRent c => c.terminated_at
  | .ManagementForSale c => c.terminated_at
  | .Employment c => c.terminated_at

/-- Returns the ID of the `Realty` related to this `Contract`, or `none` for
`Employment` (src/service/src/domain/contract/mod.rs,
`Contract::realty_id`). -/
def realty_id : Contract → Option RealtyId
  | .Rent c => some c.realty_id
  | .Sale c => some c.realty_id
  | .ManagementForRent c => some c.realty_id
  | .ManagementForSale c => some c.realty_id
  | .Employment _ => none

/-- Returns the `Status` of this `Contract`
(src/service/src/domain/contract/mod.rs, `Contract::status`): `Terminated`
when `terminated_at` is set, else `Completed` when `now > expires_at`, else
`Active`. -/
def status (c : Contract) (now : Instant) : contract.Status :=
  if (c.terminated_at).isSome then contract.Status.Terminated
  else
    match c.expires_at with
    | some t => if now > t then contract.Status.Completed
                else contract.Status.Active
    | none => contract.Status.Active

/-- Returns whether this `Contract` is active
(src/service/src/domain/contract/mod.rs, `Contract::is_active`), delegating
to the variant implementations. -/
def is_active (c : Contract) (now : Instant) : Bool :=
  match c with
  | .Rent c => c.is_active now
  | .Sale c => c.is_active now
  | .ManagementForRent c => c.is_active now
  | .ManagementForSale c => c.is_active now
  | .Employment c => c.is_active now

/-- Sets `terminated_at` of this `Contract`
(src/service/src/domain/contract/mod.rs, `Contract::terminated_at_mut`,
followed by `Option::replace` at the call site). -/
def withTerminatedAt (c : Contract) (t : Option Instant) : Contract :=
  match c with
  | .Rent c => .Rent { c with terminated_at := t }
  | .Sale c => .Sale { c with terminated_at := t }
  | .ManagementForRent c => .ManagementForRent { c with terminated_at := t }
  | .ManagementForSale c => .ManagementForSale { c with terminated_at := t }
  | .Employment c => .Employment { c with terminated_at := t }

end Contract

namespace pagination

/-- Pagination arguments (src/common/src/pagination.rs, `Arguments`). -/
inductive Arguments (C : Type) where
  | Forward (first : Nat) (after : Option C) (including : Bool)
  | Backward (last : Nat) (before : Option C) (including : Bool)
deriving DecidableEq, Repr

/-- Kind of pagination (src/common/src/pagination.rs, `Kind`). -/
inductive Kind where
  | Forward
  | ForwardIncluding
  | Backward
  | BackwardIncluding
deriving DecidableEq, Repr

/-- Rust `usize::try_from` conversion on the numeric limit type, with `Num`
instantiated as `Int`: `TryInto<usize>` succeeds exactly on non-negative
values. -/
def tryIntoUsize (n : Int) : Option Nat :=
  if 0 ≤ n then some n.toNat else none

/-- Creates new `Arguments` (src/common/src/pagination.rs,
`Arguments::new`).  Mirrors the Rust `match` over
`(first, after, last, before)`; match arms whose `after == before` guard
fails fall through, and since no later pattern covers those shapes they all
reach the final wildcard arm returning `None`, which is what the `else`
branches encode. -/
def Arguments.new {C : Type} [DecidableEq C] (first : Option Int)
    (after : Option C) (last : Option Int) (before : Option C)
    (default : Int) : Option (Arguments C) :=
  match first, after, last, before with
  | none, none, none, none =>
      (tryIntoUsize default).map (fun f => .Forward f none false)
  | some f, none, none, none =>
      (tryIntoUsize f).map (fun fv => .Forward fv none false)
  | some f, some a, none, none =>
      (tryIntoUsize f).map (fun fv => .Forward fv (some a) false)
  | some f, some a, none, some b =>
      if a = b then (tryIntoUsize f).map (fun fv => .Forward fv (some a) true)
      else none
  | none, none, some l, none =>
      (tryIntoUsize l).map (fun lv => .Backward lv none false)
  | none, none, some l, some b =>
      (tryIntoUsize l).map (fun lv => .Backward lv (some b) false)
  | none, some a, some l, some b =>
      if a = b then (tryIntoUsize l).map (fun lv => .Backward lv (some b) true)
      else none
  | none, some a, none, some b =>
      if a = b then some (.Forward 1 (some a) true) else none
  | _, _, _, _ => none

/-- Returns the `Kind` of pagination these `Arguments` request
(src/common/src/pagination.rs, `Arguments::kind`). -/
def Arguments.kind {C : Type} : Arguments C → Kind
  | .Forward _ _ including => if including then .ForwardIncluding else .Forward
  | .Backward _ _ including =>
      if including then .BackwardIncluding else .Backward

/-- Returns the limit requested by these `Arguments`
(src/common/src/pagination.rs, `Arguments::limit`). -/
def Arguments.limit {C : Type} : Arguments C → Nat
  | .Forward first _ _ => first
  | .Backward last _ _ => last

/-- Returns whether this `Kind` is an including (cursor-inclusive) one;
corresponds to the `including` flag that `Arguments::kind` translates into
the `ForwardIncluding`/`BackwardIncluding` kinds. -/
def Kind.is_including : Kind → Bool
  | .ForwardIncluding => true
  | .BackwardIncluding => true
  | .Forward => false
  | .Backward => false

end pagination

/-- User entity (src/service/src/domain/user/mod.rs). -/
structure User where
  id : UserId
  name : String
  login : String
  password_hash : String
  email : Option String
  phone : Option String
  created_at : Instant
  deleted_at : Option Instant
deriving DecidableEq, Repr

namespace realty

/-- Input of `realty::Hash::new` (src/service/src/domain/realty.rs): the ten
address-defining fields, hashed in a fixed order.  The xxh3 digest is
modelled as the tuple of hashed fields itself; the commands only rely on the
digest being a deterministic function of these fields. -/
structure Hash where
  country : String
  state : Option String
  city : String
  street : String
  zip_code : Option String
  building_name : String
  num_floors : Nat
  floor : Option Nat
  apartment_num : Option String
  room_num : Option String
deriving DecidableEq, Repr

/-- Calculates a new `Hash` for a `Realty` (src/service/src/domain/realty.rs,
`Hash::new`), feeding the ten address fields to the hasher in a fixed
order. -/
def Hash.new (country : String) (state : Option String) (city : String)
    (street : String) (zip_code : Option String) (building_name : String)
    (num_floors : Nat) (floor : Option Nat) (apartment_num : Option String)
    (room_num : Option String) : Hash :=
  { country, state, city, street, zip_code, building_name, num_floors,
    floor, apartment_num, room_num }

/-- Creates a new `Address` from its parts (src/service/src/domain/realty.rs,
`Address::from_parts`): comma-joins the present components. -/
def Address.from_parts (country : String) (state : Option String)
    (city : String) (street : String) (zip_code : Option String)
    (building_name : String) (floor : Option Nat)
    (apartment_num : Option String) (room_num : Option String) : String :=
  let app (acc : String) : Option String → String
    | none => acc
    | some s => acc ++ ", " ++ s
  let a := country
  let a := app a state
  let a := a ++ ", " ++ city
  let a := a ++ ", " ++ street
  let a := app a zip_code
  let a := a ++ ", " ++ building_name
  let a := app a (floor.map toString)
  let a := app a apartment_num
  app a room_num

end realty

/-- Realty entity (src/service/src/domain/realty.rs). -/
structure Realty where
  id : RealtyId
  hash : realty.Hash
  address : String
  country : String
  state : Option String
  city : String
  street : String
  zip_code : Option String
  building_name : String
  num_floors : Nat
  floor : Option Nat
  apartment_num : Option String
  room_num : Option String
  created_at : Instant
  deleted_at : Option Instant
deriving DecidableEq, Repr

/-- Storage state: the three entity tables the verified commands touch. -/
structure Db where
  users : List User
  realties : List Realty
  contracts : List Contract
deriving DecidableEq, Repr

/-- Abstract storage operation issued by a command (src/common/src/
operations.rs shapes, instantiated at the selectors the commands use). -/
inductive Op where
  | startTransaction
  | commit
  | lockRealtyId (id : RealtyId)
  | lockRealtyHash (h : realty.Hash)
  | lockContractId (id : ContractId)
  | selectRealtyById (id : RealtyId)
  | selectRealtyByHash (h : realty.Hash)
  | selectUsersByIds (ids : List UserId)
  | selectUserById (id : UserId)
  | selectUserByLogin (login : String)
  | selectActiveEmployment (id : UserId)
  | selectActiveManagementForRent (id : RealtyId)
  | selectActiveManagementForSale (id : RealtyId)
  | selectIsRented (id : RealtyId)
  | selectContractById (id : ContractId)
  | insertUser (u : User)
  | insertRealty (r : Realty)
  | insertContract (c : Contract)
  | updateContract (c : Contract)
deriving DecidableEq, Repr

/-- Returns whether an operation mutates storage (an `Insert`/`Update`). -/
def Op.isMutation : Op → Bool
  | .insertUser _ => true
  | .insertRealty _ => true
  | .insertContract _ => true
  | .updateContract _ => true
  | _ => false

/-- Returns whether an operation is `Commit`. -/
def Op.isCommit : Op → Bool
  | .commit => true
  | _ => false

/-- Returns whether an operation is `StartTransaction`. -/
def Op.isStartTransaction : Op → Bool
  | .startTransaction => true
  | _ => false

/-- Mutations of a trace that actually persist: a unit of work rolls back on
drop without `Commit` (src/common/src/operations.rs contract), so a trace
with no `Commit` persists nothing.  All the verified commands issue their
mutations inside the single transaction, so on `Commit` all mutations of the
trace persist. -/
def committedMutations (tr : List Op) : List Op :=
  if tr.any Op.isCommit then tr.filter Op.isMutation else []

/-- Upserts a contract row by ID (the postgres `Insert<Contract>` /
`Update<Contract>` both execute `INSERT .. ON CONFLICT (id) DO UPDATE`,
src/service/src/infra/database/postgres/impls/contract.rs). -/
def Db.upsertContract (db : Db) (c : Contract) : Db :=
  if db.contracts.any (fun x => x.id == c.id) then
    { db with
      contracts := db.contracts.map (fun x => if x.id == c.id then c else x) }
  else { db with contracts := db.contracts ++ [c] }

/-- Applies one persisted mutation to the storage state. -/
def Db.applyOp (db : Db) : Op → Db
  | .insertUser u => { db with users := db.users ++ [u] }
  | .insertRealty r => { db with realties := db.realties ++ [r] }
  | .insertContract c => db.upsertContract c
  | .updateContract c => db.upsertContract c
  | _ => db

/-- State of the storage after a command's trace: only committed mutations
are applied (rollback-on-drop otherwise). -/
def Db.afterTrace (db : Db) (tr : List Op) : Db :=
  (committedMutations tr).foldl Db.applyOp db

/-- Selects a user by ID (src/service/src/infra/database/postgres/impls/
user.rs: `WHERE id = .. AND deleted_at IS NULL`). -/
def Db.selectUserById (db : Db) (uid : UserId) : Option User :=
  db.users.find? (fun u => u.id == uid && u.deleted_at.isNone)

/-- Selects a user by login (src/service/src/infra/database/postgres/impls/
user.rs: `WHERE login = .. AND deleted_at IS NULL`). -/
def Db.selectUserByLogin (db : Db) (login : String) : Option User :=
  db.users.find? (fun u => u.login == login && u.deleted_at.isNone)

/-- Selects a realty by ID (src/service/src/infra/database/postgres/impls/
realty.rs). -/
def Db.selectRealtyById (db : Db) (rid : RealtyId) : Option Realty :=
  db.realties.find? (fun r => r.id == rid)

/-- Selects a realty by content hash (src/service/src/infra/database/
postgres/impls/realty.rs: `WHERE hash = .. LIMIT 1`). -/
def Db.selectRealtyByHash (db : Db) (h : realty.Hash) : Option Realty :=
  db.realties.find? (fun r => r.hash == h)

/-- Selects the active employment contract of a user
(src/service/src/infra/database/postgres/impls/contract.rs:
`kind = Employment AND employer_id = .. AND terminated_at IS NULL AND
(expires_at IS NULL OR expires_at > NOW())`). -/
def Db.selectActiveEmployment (db : Db) (uid : UserId) (now : Instant) :
    Option contract.Employment :=
  db.contracts.findSome? (fun c =>
    match c with
    | .Employment e =>
        if e.employer_id == uid && e.is_active now then some e else none
    | _ => none)

/-- Selects the active management-for-rent contract of a realty
(src/service/src/infra/database/postgres/impls/contract.rs). -/
def Db.selectActiveManagementForRent (db : Db) (rid : RealtyId)
    (now : Instant) : Option contract.ManagementForRent :=
  db.contracts.findSome? (fun c =>
    match c with
    | .ManagementForRent m =>
        if m.realty_id == rid && m.is_active now then some m else none
    | _ => none)

/-- Selects the active management-for-sale contract of a realty
(src/service/src/infra/database/postgres/impls/contract.rs). -/
def Db.selectActiveManagementForSale (db : Db) (rid : RealtyId)
    (now : Instant) : Option contract.ManagementForSale :=
  db.contracts.findSome? (fun c =>
    match c with
    | .ManagementForSale m =>
        if m.realty_id == rid && m.is_active now then some m else none
    | _ => none)

/-- Returns whether a realty is rented: an active `Rent` contract references
it (src/service/src/infra/database/postgres/impls/realty.rs, `IsRented`). -/
def Db.isRented (db : Db) (rid : RealtyId) (now : Instant) : Bool :=
  db.contracts.any (fun c =>
    match c with
    | .Rent r => r.realty_id == rid && r.is_active now
    | _ => false)

/-- Selects a contract by ID (src/service/src/infra/database/postgres/impls/
contract.rs). -/
def Db.selectContractById (db : Db) (cid : ContractId) : Option Contract :=
  db.contracts.find? (fun c => c.id == cid)

namespace command

/-- Command for creating a new `User`
(src/service/src/command/create_user.rs, `CreateUser`). -/
structure CreateUser where
  name : String
  login : String
  password : String
  email : Option String
  phone : Option String
deriving DecidableEq, Repr

/-- Error of `CreateUser` command execution
(src/service/src/command/create_user.rs, `ExecutionError`). -/
inductive CreateUserError where
  | Db
  | LoginOccupied (login : String)
  | NoContactInfo
deriving DecidableEq, Repr

/-- Password hashing (src/service/src/domain/user/mod.rs,
`PasswordHash::new`), modelled as an abstract deterministic encoding; none of
the verified claims depend on its value. -/
def passwordHash (password : String) : String :=
  password

/-- Executes the `CreateUser` command
(src/service/src/command/create_user.rs, `CreateUser::execute`): rejects a
command with no contact info, selects by login and fails with
`LoginOccupied` when a user exists, then opens a transaction and inserts the
new user.  `freshId` stands for the random `user::Id::new()`, `now` for
`DateTime::now()`.  Returns the result together with the operation trace. -/
def CreateUser.execute (cmd : CreateUser) (db : Db) (freshId : UserId)
    (now : Instant) : Except CreateUserError User × List Op :=
  if cmd.email.isNone && cmd.phone.isNone then
    (.error .NoContactInfo, [])
  else
    let tr0 := [Op.selectUserByLogin cmd.login]
    match db.selectUserByLogin cmd.login with
    | some _ => (.error (.LoginOccupied cmd.login), tr0)
    | none =>
        let user : User :=
          { id := freshId, name := cmd.name, login := cmd.login,
            password_hash := passwordHash cmd.password, email := cmd.email,
            phone := cmd.phone, created_at := now, deleted_at := none }
        (.ok user,
         tr0 ++ [Op.startTransaction, Op.insertUser user, Op.commit])

/-- Command for creating a new `Realty`
(src/service/src/command/create_realty.rs, `CreateRealty`). -/
structure CreateRealty where
  country : String
  state : Option String
  city : String
  street : String
  zip_code : Option String
  building_name : String
  num_floors : Nat
  floor : Option Nat
  apartment_num : Option String
  room_num : Option String
deriving DecidableEq, Repr

/-- Hash of the address-defining fields of a `CreateRealty` command, as
computed at the top of `CreateRealty::execute`. -/
def CreateRealty.hash (cmd : CreateRealty) : realty.Hash :=
  realty.Hash.new cmd.country cmd.state cmd.city cmd.street cmd.zip_code
    cmd.building_name cmd.num_floors cmd.floor cmd.apartment_num cmd.room_num

/-- Candidate `Realty` row built by `CreateRealty::execute`
(src/service/src/command/create_realty.rs, the `let realty = Realty ...`
binding): carries the computed hash, the derived address and the command's
address fields. -/
def CreateRealty.newRealty (cmd : CreateRealty) (freshId : RealtyId)
    (now : Instant) : Realty :=
  { id := freshId, hash := cmd.hash,
    address := realty.Address.from_parts cmd.country cmd.state cmd.city
      cmd.street cmd.zip_code cmd.building_name cmd.floor cmd.apartment_num
      cmd.room_num,
    country := cmd.country, state := cmd.state, city := cmd.city,
    street := cmd.street, zip_code := cmd.zip_code,
    building_name := cmd.building_name, num_floors := cmd.num_floors,
    floor := cmd.floor, apartment_num := cmd.apartment_num,
    room_num := cmd.room_num, created_at := now, deleted_at := none }

/-- Executes the `CreateRealty` command
(src/service/src/command/create_realty.rs, `CreateRealty::execute`):
computes the hash, builds the candidate row (`newRealty`), opens a
transaction, locks by hash, selects by hash and returns the existing realty
when found (the transaction is dropped without commit), otherwise inserts
the new realty and commits.  `freshId` stands for the random
`realty::Id::new()`, `now` for `DateTime::now()`. -/
def CreateRealty.execute (cmd : CreateRealty) (db : Db) (freshId : RealtyId)
    (now : Instant) : Realty × List Op :=
  let hash := cmd.hash
  let realty := CreateRealty.newRealty cmd freshId now
  let tr0 := [Op.startTransaction, Op.lockRealtyHash hash,
              Op.selectRealtyByHash hash]
  match db.selectRealtyByHash hash with
  | some existing => (existing, tr0)
  | none => (realty, tr0 ++ [Op.insertRealty realty, Op.commit])

/-- Command for creating a new rent contract
(src/service/src/command/create_rent_contract.rs, `CreateRentContract`). -/
structure CreateRentContract where
  realty_id : RealtyId
  employer_id : UserId
  purchaser_id : UserId
  name : String
  description : String
  expires_at : Option Instant
  price : Money
  deposit : Option Money
deriving DecidableEq, Repr

/-- Error of `CreateRentContract` command execution
(src/service/src/command/create_rent_contract.rs, `ExecutionError`). -/
inductive CreateRentError where
  | Db
  | RealtyNotManaged (id : RealtyId)
  | UserNotExists (id : UserId)
  | UserNotEmployer (id : UserId)
  | UserNotManager (id : UserId)
deriving DecidableEq, Repr

/-- Executes the `CreateRentContract` command
(src/service/src/command/create_rent_contract.rs,
`CreateRentContract::execute`).  Pre-transaction: selects the realty (absent
realty reports `RealtyNotManaged`), the two users and the initiator's active
employment.  Then opens a transaction, locks the realty by ID, re-reads the
active `ManagementForRent` contract under the lock, checks the manager,
inserts the new `Rent` contract, updates the management contract with
`terminated_at = Some(now)` and commits.  `freshId` stands for the random
`contract::Id::new()`, `now` for `DateTime::now()`. -/
def CreateRentContract.execute (cmd : CreateRentContract) (db : Db)
    (freshId : ContractId) (now : Instant) :
    Except CreateRentError Contract × List Op :=
  let tr0 := [Op.selectRealtyById cmd.realty_id]
  match db.selectRealtyById cmd.realty_id with
  | none => (.error (.RealtyNotManaged cmd.realty_id), tr0)
  | some realty =>
  let tr1 := tr0 ++ [Op.selectUsersByIds [cmd.employer_id, cmd.purchaser_id]]
  match db.selectUserById cmd.employer_id with
  | none => (.error (.UserNotExists cmd.employer_id), tr1)
  | some employer =>
  match db.selectUserById cmd.purchaser_id with
  | none => (.error (.UserNotExists cmd.purchaser_id), tr1)
  | some purchaser =>
  let tr2 := tr1 ++ [Op.selectActiveEmployment cmd.employer_id]
  match db.selectActiveEmployment cmd.employer_id now with
  | none => (.error (.UserNotEmployer cmd.employer_id), tr2)
  | some _ =>
  let tr3 := tr2 ++ [Op.startTransaction, Op.lockRealtyId realty.id,
                     Op.selectActiveManagementForRent realty.id]
  match db.selectActiveManagementForRent realty.id now with
  | none => (.error (.RealtyNotManaged realty.id), tr3)
  | some realty_contract =>
  if realty_contract.employer_id ≠ cmd.employer_id then
    (.error (.UserNotManager cmd.employer_id), tr3)
  else
    let contract : Contract := .Rent
      { id := freshId, name := cmd.name, description := cmd.description,
        realty_id := realty.id, purchaser_id := purchaser.id,
        landlord_id := realty_contract.landlord_id,
        employer_id := employer.id, price := cmd.price,
        deposit := cmd.deposit, created_at := now,
        expires_at := cmd.expires_at, terminated_at := none }
    let terminated : Contract := .ManagementForRent
      { realty_contract with terminated_at := some now }
    (.ok contract,
     tr3 ++ [Op.insertContract contract, Op.updateContract terminated,
             Op.commit])

/-- Command for creating a new sale contract
(src/service/src/command/create_sale_contract.rs, `CreateSaleContract`). -/
structure CreateSaleContract where
  realty_id : RealtyId
  employer_id : UserId
  purchaser_id : UserId
  name : String
  description : String
  expires_at : Option Instant
  price : Money
  deposit : Option Money
deriving DecidableEq, Repr

/-- Error of `CreateSaleContract` command execution
(src/service/src/command/create_sale_contract.rs, `ExecutionError`). -/
inductive CreateSaleError where
  | Db
  | RealtyManagedForRent (id : RealtyId)
  | RealtyNotManaged (id : RealtyId)
  | RealtyRented (id : RealtyId)
  | UserNotEmployer (id : UserId)
  | UserNotExists (id : UserId)
  | UserNotManager (id : UserId)
deriving DecidableEq, Repr

/-- Executes the `CreateSaleContract` command
(src/service/src/command/create_sale_contract.rs,
`CreateSaleContract::execute`).  Pre-transaction: selects the realty, the
two users and the initiator's active employment.  Then opens a transaction,
locks the realty, re-reads the active `ManagementForSale` contract (absence
reports `RealtyNotManaged`), checks the manager, rejects when an active
`ManagementForRent` exists (`RealtyManagedForRent`) or when the realty is
rented (`RealtyRented`), inserts the new contract — which the source
constructs as a `contract::Rent` value — updates the management contract
with `terminated_at = Some(now)` and commits. -/
def CreateSaleContract.execute (cmd : CreateSaleContract) (db : Db)
    (freshId : ContractId) (now : Instant) :
    Except CreateSaleError Contract × List Op :=
  let tr0 := [Op.selectRealtyById cmd.realty_id]
  match db.selectRealtyById cmd.realty_id with
  | none => (.error (.RealtyNotManaged cmd.realty_id), tr0)
  | some realty =>
  let tr1 := tr0 ++ [Op.selectUsersByIds [cmd.employer_id, cmd.purchaser_id]]
  match db.selectUserById cmd.employer_id with
  | none => (.error (.UserNotExists cmd.employer_id), tr1)
  | some employer =>
  match db.selectUserById cmd.purchaser_id with
  | none => (.error (.UserNotExists cmd.purchaser_id), tr1)
  | some purchaser =>
  let tr2 := tr1 ++ [Op.selectActiveEmployment cmd.employer_id]
  match db.selectActiveEmployment cmd.employer_id now with
  | none => (.error (.UserNotEmployer cmd.employer_id), tr2)
  | some _ =>
  let tr3 := tr2 ++ [Op.startTransaction, Op.lockRealtyId realty.id,
                     Op.selectActiveManagementForSale realty.id]
  match db.selectActiveManagementForSale realty.id now with
  | none => (.error (.RealtyNotManaged realty.id), tr3)
  | some realty_contract =>
  if realty_contract.employer_id ≠ cmd.employer_id then
    (.error (.UserNotManager cmd.employer_id), tr3)
  else
  let tr4 := tr3 ++ [Op.selectActiveManagementForRent realty.id]
  match db.selectActiveManagementForRent realty.id now with
  | some _ => (.error (.RealtyManagedForRent realty.id), tr4)
  | none =>
  let tr5 := tr4 ++ [Op.selectIsRented realty.id]
  if db.isRented realty.id now then
    (.error (.RealtyRented realty.id), tr5)
  else
    let contract : Contract := .Rent
      { id := freshId, name := cmd.name, description := cmd.description,
        realty_id := realty.id, purchaser_id := purchaser.id,
        landlord_id := realty_contract.landlord_id,
        employer_id := employer.id, price := cmd.price,
        deposit := cmd.deposit, created_at := now,
        expires_at := cmd.expires_at, terminated_at := none }
    let terminated : Contract := .ManagementForSale
      { realty_contract with terminated_at := some now }
    (.ok contract,
     tr5 ++ [Op.insertContract contract, Op.updateContract terminated,
             Op.commit])

/-- Command for creating a new employment contract
(src/service/src/command/create_employment_contract.rs,
`CreateEmploymentContract`). -/
structure CreateEmploymentContract where
  user_id : UserId
  initiator_id : UserId
  name : String
  description : String
  expires_at : Option Instant
  base_salary : Money
deriving DecidableEq, Repr

/-- Error of `CreateEmploymentContract` command execution
(src/service/src/command/create_employment_contract.rs,
`ExecutionError`). -/
inductive CreateEmploymentError where
  | Db
  | UserAlreadyEmployed (id : UserId)
  | UserNotEmployer (id : UserId)
  | UserNotExists (id : UserId)
deriving DecidableEq, Repr

/-- Validation phase of `CreateEmploymentContract::execute`
(src/service/src/command/create_employment_contract.rs, lines before
`Transact`): selects the two users, checks the initiator holds an active
employment, and fails with `UserAlreadyEmployed` when the target user
already holds one.  All of these reads are issued on the plain (non
transactional) database handle, before the transaction is opened and with no
lock taken. -/
def CreateEmploymentContract.checks (cmd : CreateEmploymentContract)
    (db : Db) (now : Instant) : Except CreateEmploymentError Unit :=
  match db.selectUserById cmd.user_id with
  | none => .error (.UserNotExists cmd.user_id)
  | some user =>
  match db.selectUserById cmd.initiator_id with
  | none => .error (.UserNotExists cmd.initiator_id)
  | some initiator =>
  match db.selectActiveEmployment initiator.id now with
  | none => .error (.UserNotEmployer initiator.id)
  | some _ =>
  match db.selectActiveEmployment user.id now with
  | some _ => .error (.UserAlreadyEmployed user.id)
  | none => .ok ()

/-- The contract value `CreateEmploymentContract::execute` builds after its
checks pass (src/service/src/command/create_employment_contract.rs). -/
def CreateEmploymentContract.newContract (cmd : CreateEmploymentContract)
    (freshId : ContractId) (now : Instant) : Contract :=
  .Employment
    { id := freshId, name := cmd.name, description := cmd.description,
      employer_id := cmd.user_id, base_salary := cmd.base_salary,
      created_at := now, expires_at := cmd.expires_at,
      terminated_at := none }

/-- Transactional phase of `CreateEmploymentContract::execute`: opens a
transaction, inserts the contract and commits — with no further read or
validation between the pre-transaction checks and the commit. -/
def CreateEmploymentContract.commitPhase (db : Db) (c : Contract) : Db :=
  db.upsertContract c

/-- Executes the `CreateEmploymentContract` command
(src/service/src/command/create_employment_contract.rs,
`CreateEmploymentContract::execute`): the pre-transaction `checks` followed
unconditionally by the transactional insert-and-commit. -/
def CreateEmploymentContract.execute (cmd : CreateEmploymentContract)
    (db : Db) (freshId : ContractId) (now : Instant) :
    Except CreateEmploymentError Contract × Db :=
  match CreateEmploymentContract.checks cmd db now with
  | .error e => (.error e, db)
  | .ok _ =>
      let c := CreateEmploymentContract.newContract cmd freshId now
      (.ok c, CreateEmploymentContract.commitPhase db c)

/-- Command for terminating a contract
(src/service/src/command/terminate_contract.rs, `TerminateContract`). -/
structure TerminateContract where
  contract_id : ContractId
  initiator_id : UserId
deriving DecidableEq, Repr

/-- Error of `TerminateContract` command execution
(src/service/src/command/terminate_contract.rs, `ExecutionError`). -/
inductive TerminateError where
  | ContractAlreadyTerminated (id : ContractId)
  | ContractNotExists (id : ContractId)
  | Db
  | UserNotEmployer (id : UserId)
  | UserNotExists (id : UserId)
deriving DecidableEq, Repr

/-- Executes the `TerminateContract` command
(src/service/src/command/terminate_contract.rs,
`TerminateContract::execute`): selects the initiator and its active
employment, selects the contract filtered by `Contract::is_active`
(a non-active contract yields `ContractNotExists`), opens a transaction,
locks the realty (when the contract references one) and the contract,
re-reads the contract under the lock with the same `is_active` filter, then
checks `terminated_at` (unreachable after the filter), sets
`terminated_at = Some(now)` and persists via `Insert` before `Commit`. -/
def TerminateContract.execute (cmd : TerminateContract) (db : Db)
    (now : Instant) : Except TerminateError Contract × List Op :=
  let tr0 := [Op.selectUserById cmd.initiator_id]
  match db.selectUserById cmd.initiator_id with
  | none => (.error (.UserNotExists cmd.initiator_id), tr0)
  | some initiator =>
  let tr1 := tr0 ++ [Op.selectActiveEmployment initiator.id]
  match db.selectActiveEmployment initiator.id now with
  | none => (.error (.UserNotEmployer initiator.id), tr1)
  | some _ =>
  let tr2 := tr1 ++ [Op.selectContractById cmd.contract_id]
  match (db.selectContractById cmd.contract_id).filter
      (fun c => c.is_active now) with
  | none => (.error (.ContractNotExists cmd.contract_id), tr2)
  | some contract =>
  let lockOps :=
    (match contract.realty_id with
     | some rid => [Op.lockRealtyId rid]
     | none => []) ++ [Op.lockContractId contract.id]
  let tr3 := tr2 ++ [Op.startTransaction] ++ lockOps
             ++ [Op.selectContractById cmd.contract_id]
  match (db.selectContractById cmd.contract_id).filter
      (fun c => c.is_active now) with
  | none => (.error (.ContractNotExists cmd.contract_id), tr3)
  | some contract2 =>
  if (contract2.terminated_at).isSome then
    (.error (.ContractAlreadyTerminated cmd.contract_id), tr3)
  else
    let c' := contract2.withTerminatedAt (some now)
    (.ok c', tr3 ++ [Op.insertContract c', Op.commit])

end command

/-! Trace predicates and concrete scenario states used by the claims. -/

/-- Transactional suffix of a successful `CreateRentContract` /
`CreateSaleContract` execution: lock the realty, re-read the management
contract, insert the new contract, terminate the management contract,
commit. -/
def rentTxOps (c mfr : Contract) (sel : Op) (rid : RealtyId) : List Op :=
  [Op.startTransaction, Op.lockRealtyId rid, sel,
   Op.insertContract c, Op.updateContract mfr, Op.commit]

/-- Returns whether an operation is the select of a user by login. -/
def isSelectUserByLogin : Op → Bool
  | .selectUserByLogin _ => true
  | _ => false

/-- Position predicate used to state C7 as claimed: the (first) login select
of the trace lies strictly between the (first) `StartTransaction` and the
(first) `Commit`, i.e. the login-uniqueness pre-check runs inside the
transaction. -/
def loginSelectInsideTx (tr : List Op) : Bool :=
  match tr.findIdx? isSelectUserByLogin,
      tr.findIdx? Op.isStartTransaction, tr.findIdx? Op.isCommit with
  | some i, some j, some k => decide (j < i) && decide (i < k)
  | _, _, _ => false

/-- Number of active `Employment` contracts a user holds in a state — the
quantity the "at most one Active Employment per User" invariant bounds. -/
def countActiveEmployments (db : Db) (uid : UserId) (now : Instant) : Nat :=
  (db.contracts.filter (fun c =>
    match c with
    | .Employment e => e.employer_id == uid && e.is_active now
    | _ => false)).length

/-- Sample contract for the C2 witness: terminated at 3, expiring at 10. -/
def c2Terminated : Contract := .Employment
  { id := 1, name := "employment", description := "d", employer_id := 2,
    base_salary := 100, created_at := 0, expires_at := some 10,
    terminated_at := some 3 }

/-- Sample contract for the C2 witness: never terminated, expiring at 4. -/
def c2Expiring : Contract := .Employment
  { id := 2, name := "employment", description := "d", employer_id := 2,
    base_salary := 100, created_at := 0, expires_at := some 4,
    terminated_at := none }

/-- Sample contract for the C2 witness: never terminated, no expiration. -/
def c2Open : Contract := .Employment
  { id := 3, name := "employment", description := "d", employer_id := 2,
    base_salary := 100, created_at := 0, expires_at := none,
    terminated_at := none }

/-- Contract at the expiration boundary used to refute C10: not terminated,
expiring exactly at instant 5. -/
def c10Boundary : Contract := .Employment
  { id := 1, name := "employment", description := "d", employer_id := 2,
    base_salary := 100, created_at := 0, expires_at := some 5,
    terminated_at := none }

/-- Scenario user with id 2 acting as the employer/initiator. -/
def employerUser : User :=
  { id := 2, name := "Employer", login := "employer",
    password_hash := "ph1", email := some "employer@example.com",
    phone := none, created_at := 0, deleted_at := none }

/-- Scenario user with id 3 acting as the purchaser / employment target. -/
def purchaserUser : User :=
  { id := 3, name := "Purchaser", login := "purchaser",
    password_hash := "ph2", email := some "purchaser@example.com",
    phone := none, created_at := 0, deleted_at := none }

/-- Scenario realty with id 1. -/
def sampleRealty : Realty :=
  { id := 1,
    hash := realty.Hash.new "NL" none "Amsterdam" "Main" none "B1" 2 none
      none none,
    address := "NL, Amsterdam, Main, B1", country := "NL", state := none,
    city := "Amsterdam", street := "Main", zip_code := none,
    building_name := "B1", num_floors := 2, floor := none,
    apartment_num := none, room_num := none, created_at := 0,
    deleted_at := none }

/-- Active employment record of `employerUser` (contract id 10). -/
def employerEmploymentRec : contract.Employment :=
  { id := 10, name := "employment", description := "d", employer_id := 2,
    base_salary := 100, created_at := 0, expires_at := none,
    terminated_at := none }

/-- Active employment contract of `employerUser`. -/
def employerEmployment : Contract := .Employment employerEmploymentRec

/-- Active management-for-rent contract for `sampleRealty` (contract id 11),
managed by `employerUser`, owned by landlord user 4. -/
def mfrSample : contract.ManagementForRent :=
  { id := 11, name := "mfr", description := "d", realty_id := 1,
    landlord_id := 4, employer_id := 2, expected_price := 1000,
    expected_deposit := none, one_time_fee := none, monthly_fee := none,
    percent_fee := none, is_placed := false, created_at := 0,
    expires_at := none, terminated_at := none }

/-- Active management-for-sale contract for `sampleRealty` (contract id 12),
managed by `employerUser`, owned by landlord user 4. -/
def mfsSample : contract.ManagementForSale :=
  { id := 12, name := "mfs", description := "d", realty_id := 1,
    landlord_id := 4, employer_id := 2, expected_price := 100000,
    one_time_fee := none, monthly_fee := none, percent_fee := none,
    is_placed := false, created_at := 0, expires_at := none,
    terminated_at := none }

/-- Active rent contract on `sampleRealty` (contract id 13). -/
def activeRentSample : Contract := .Rent
  { id := 13, name := "rent", description := "d", realty_id := 1,
    purchaser_id := 3, landlord_id := 4, employer_id := 2, price := 500,
    deposit := none, created_at := 0, expires_at := none,
    terminated_at := none }

/-- State for the C3 witness: realty 1 under an active management-for-rent
contract, employer 2 employed, purchaser 3 present. -/
def rentDb : Db :=
  { users := [employerUser, purchaserUser], realties := [sampleRealty],
    contracts := [employerEmployment, .ManagementForRent mfrSample] }

/-- Rent-creation command for realty 1 by employer 2 for purchaser 3. -/
def rentCmd : command.CreateRentContract :=
  { realty_id := 1, employer_id := 2, purchaser_id := 3, name := "rent",
    description := "d", expires_at := none, price := 500, deposit := none }

/-- Rent-creation command targeting an absent realty (id 99). -/
def rentCmdMissing : command.CreateRentContract :=
  { rentCmd with realty_id := 99 }

/-- Rent contract produced by executing `rentCmd` against `rentDb` with
fresh contract id 100 at instant 50. -/
def rentResult : Contract := .Rent
  { id := 100, name := "rent", description := "d", realty_id := 1,
    purchaser_id := 3, landlord_id := 4, employer_id := 2, price := 500,
    deposit := none, created_at := 50, expires_at := none,
    terminated_at := none }

/-- State for C1: realty 1 under an active management-for-sale contract,
not managed for rent, not rented. -/
def saleDb : Db :=
  { users := [employerUser, purchaserUser], realties := [sampleRealty],
    contracts := [employerEmployment, .ManagementForSale mfsSample] }

/-- Sale-creation command for realty 1 by employer 2 for purchaser 3. -/
def saleCmd : command.CreateSaleContract :=
  { realty_id := 1, employer_id := 2, purchaser_id := 3, name := "sale",
    description := "d", expires_at := none, price := 90000,
    deposit := none }

/-- Contract actually produced by executing `saleCmd` against `saleDb` with
fresh contract id 100 at instant 50: a `Rent`-variant value, as built by the
source of `CreateSaleContract::execute`. -/
def saleResult : Contract := .Rent
  { id := 100, name := "sale", description := "d", realty_id := 1,
    purchaser_id := 3, landlord_id := 4, employer_id := 2, price := 90000,
    deposit := none, created_at := 50, expires_at := none,
    terminated_at := none }

/-- State for C6 scenario (a): realty 1 has an active management-for-sale
contract and an active management-for-rent contract. -/
def saleDbManagedForRent : Db :=
  { saleDb with contracts := [employerEmployment,
      .ManagementForSale mfsSample, .ManagementForRent mfrSample] }

/-- State for C6 scenario (b): realty 1 has an active management-for-sale
contract and an active rent contract. -/
def saleDbRented : Db :=
  { saleDb with contracts := [employerEmployment,
      .ManagementForSale mfsSample, activeRentSample] }

/-- State for C6 scenario (c): realty 1 exists but has no active
management-for-sale contract. -/
def saleDbNoMfs : Db :=
  { saleDb with contracts := [employerEmployment] }

/-- Employment-creation command: employer 2 hires user 3. -/
def empCmd : command.CreateEmploymentContract :=
  { user_id := 3, initiator_id := 2, name := "emp", description := "d",
    expires_at := none, base_salary := 100 }

/-- State for C5: initiator 2 employed, target user 3 not employed. -/
def empDb : Db :=
  { users := [employerUser, purchaserUser], realties := [],
    contracts := [employerEmployment] }

/-- User-creation command used in the C7 scenario. -/
def createUserCmd : command.CreateUser :=
  { name := "Alice", login := "alice", password := "pw",
    email := some "alice@example.com", phone := none }

/-- Empty storage state. -/
def emptyDb : Db := { users := [], realties := [], contracts := [] }

/-- Already-terminated rent contract (id 7, terminated at 3) used to refute
C8. -/
def terminatedRent : Contract := .Rent
  { id := 7, name := "rent", description := "d", realty_id := 1,
    purchaser_id := 3, landlord_id := 4, employer_id := 2, price := 500,
    deposit := none, created_at := 0, expires_at := none,
    terminated_at := some 3 }

/-- State for C8: employer 2 employed, contract 7 already terminated. -/
def termDb : Db :=
  { users := [employerUser], realties := [sampleRealty],
    contracts := [employerEmployment, terminatedRent] }

/-- Termination command for the already-terminated contract 7 by user 2. -/
def termCmd : command.TerminateContract :=
  { contract_id := 7, initiator_id := 2 }

/-! Helper lemmas shared between claims. -/

/-- Every `Contract` variant implements `is_active` by the same formula over
the shared `terminated_at`/`expires_at` accessors. -/
theorem contract_is_active_eq (c : Contract) (now : Instant) :
    c.is_active now =
      ((c.terminated_at).isNone &&
        (match c.expires_at with
         | none => true
         | some e => decide (now < e))) := by
  cases c <;> rfl

/-- A contract with `terminated_at` set is not active. -/
theorem is_active_false_of_terminated (c : Contract) (now : Instant)
    (h : (c.terminated_at).isSome = true) : c.is_active now = false := by
  rw [contract_is_active_eq]
  rcases hterm : c.terminated_at with _ | t
  · rw [hterm] at h
    simp at h
  · simp

/-! Claim C2. -/

/-- C2: for every `Contract` value and evaluation instant,
`Contract::status()` returns `Terminated` whenever `terminated_at` is
`Some`, regardless of `expires_at`; returns `Completed` when `terminated_at`
is `None` and `expires_at = Some(t)` with `t` in the past (`t < now`); and
returns `Active` when `terminated_at` is `None` and `expires_at` is `None`
or in the future (`now < t`). -/
theorem C2_contract_status_derivation :
    ∀ (c : Contract) (now : Instant),
      (∀ t, c.terminated_at = some t →
        c.status now = contract.Status.Terminated) ∧
      (c.terminated_at = none → ∀ t, c.expires_at = some t → t < now →
        c.status now = contract.Status.Completed) ∧
      (c.terminated_at = none → c.expires_at = none →
        c.status now = contract.Status.Active) ∧
      (c.terminated_at = none → ∀ t, c.expires_at = some t → now < t →
        c.status now = contract.Status.Active) := by
  intro c now
  refine ⟨?_, ?_, ?_, ?_⟩
  · intro t h
    simp [Contract.status, h]
  · intro h t he hlt
    simp [Contract.status, h, he, hlt]
  · intro h he
    simp [Contract.status, h, he]
  · intro h t he hlt
    have hnot : ¬ t < now := Nat.not_lt.mpr (Nat.le_of_lt hlt)
    simp [Contract.status, h, he, hnot]

/-- Witness for C2 at concrete inputs: a terminated contract is
`Terminated` at instant 5, a contract expiring at 4 is `Completed` at 5 and
`Active` at 3, and a contract without expiration is `Active` at 5. -/
theorem C2_contract_status_derivation_witness :
    c2Terminated.status 5 = contract.Status.Terminated ∧
    c2Expiring.status 5 = contract.Status.Completed ∧
    c2Open.status 5 = contract.Status.Active ∧
    c2Expiring.status 3 = contract.Status.Active := by
  refine ⟨(C2_contract_status_derivation c2Terminated 5).1 3 rfl,
          (C2_contract_status_derivation c2Expiring 5).2.1 rfl 4 rfl
            (by decide),
          (C2_contract_status_derivation c2Open 5).2.2.1 rfl rfl,
          (C2_contract_status_derivation c2Expiring 3).2.2.2 rfl 4 rfl
            (by decide)⟩

/-! Claim C4. -/

/-- When a realty with the command's hash already exists, `CreateRealty`
returns it after only locking and selecting: no `Insert`, no `Commit`. -/
theorem createRealty_found (cmd : command.CreateRealty) (db : Db)
    (freshId : RealtyId) (now : Instant) (r : Realty)
    (h : db.selectRealtyByHash cmd.hash = some r) :
    command.CreateRealty.execute cmd db freshId now =
      (r, [Op.startTransaction, Op.lockRealtyHash cmd.hash,
           Op.selectRealtyByHash cmd.hash]) := by
  simp [command.CreateRealty.execute, h]

/-- When no realty with the command's hash exists, `CreateRealty` inserts
the freshly built row and commits. -/
theorem createRealty_not_found (cmd : command.CreateRealty) (db : Db)
    (freshId : RealtyId) (now : Instant)
    (h : db.selectRealtyByHash cmd.hash = none) :
    command.CreateRealty.execute cmd db freshId now =
      (command.CreateRealty.newRealty cmd freshId now,
       [Op.startTransaction, Op.lockRealtyHash cmd.hash,
        Op.selectRealtyByHash cmd.hash,
        Op.insertRealty (command.CreateRealty.newRealty cmd freshId now),
        Op.commit]) := by
  simp [command.CreateRealty.execute, h]

/-- A lock/select-only trace persists nothing. -/
theorem afterTrace_read_only (db : Db) (h : realty.Hash) :
    db.afterTrace [Op.startTransaction, Op.lockRealtyHash h,
      Op.selectRealtyByHash h] = db := by
  simp [Db.afterTrace, committedMutations, Op.isCommit]

/-- The committed insert trace of `CreateRealty` appends the new row. -/
theorem afterTrace_insert_realty (db : Db) (h : realty.Hash) (r : Realty) :
    db.afterTrace [Op.startTransaction, Op.lockRealtyHash h,
      Op.selectRealtyByHash h, Op.insertRealty r, Op.commit] =
      { db with realties := db.realties ++ [r] } := by
  simp [Db.afterTrace, committedMutations, Op.isCommit, Op.isMutation,
        List.filter, Db.applyOp]

/-- After one `CreateRealty` execution, a select by the command's hash finds
exactly the realty that execution returned. -/
theorem createRealty_select_after (cmd : command.CreateRealty) (db0 : Db)
    (id1 : RealtyId) (now1 : Instant) :
    (db0.afterTrace
        (command.CreateRealty.execute cmd db0 id1 now1).2).selectRealtyByHash
      cmd.hash = some (command.CreateRealty.execute cmd db0 id1 now1).1 := by
  rcases hsel : db0.selectRealtyByHash cmd.hash with _ | r
  · rw [createRealty_not_found cmd db0 id1 now1 hsel]
    have hfind : db0.realties.find?
        (fun x => x.hash == cmd.hash) = none := hsel
    simp [Db.selectRealtyByHash, afterTrace_insert_realty,
          List.find?_append, hfind, command.CreateRealty.newRealty]
  · rw [createRealty_found cmd db0 id1 now1 r hsel]
    rw [afterTrace_read_only]
    exact hsel

/-- C4: running `CreateRealty` twice with identical address-defining fields
(hence equal hash) returns the same `Realty` row both times; the second
execution, finding a row with that hash after the hash lock, returns it and
issues no `Insert` (its trace contains no mutation and persists nothing). -/
theorem C4_create_realty_dedup_idempotent (cmd : command.CreateRealty)
    (db0 : Db) (id1 id2 : RealtyId) (now1 now2 : Instant) :
    (command.CreateRealty.execute cmd
        (db0.afterTrace (command.CreateRealty.execute cmd db0 id1 now1).2)
        id2 now2).1
      = (command.CreateRealty.execute cmd db0 id1 now1).1 ∧
    ((command.CreateRealty.execute cmd
        (db0.afterTrace (command.CreateRealty.execute cmd db0 id1 now1).2)
        id2 now2).2).filter Op.isMutation = [] ∧
    (db0.afterTrace
        (command.CreateRealty.execute cmd db0 id1 now1).2).afterTrace
      (command.CreateRealty.execute cmd
        (db0.afterTrace (command.CreateRealty.execute cmd db0 id1 now1).2)
        id2 now2).2
      = db0.afterTrace (command.CreateRealty.execute cmd db0 id1 now1).2 := by
  have hsel := createRealty_select_after cmd db0 id1 now1
  rw [createRealty_found cmd _ id2 now2 _ hsel]
  refine ⟨rfl, ?_, ?_⟩
  · simp [Op.isMutation, List.filter]
  · exact afterTrace_read_only _ _

/-! Claim C3. -/

/-- A successful active-management-for-rent select returns a contract of the
requested realty that is active at the evaluation instant. -/
theorem selectActiveMFR_sound (db : Db) (rid : RealtyId) (now : Instant)
    (m : contract.ManagementForRent)
    (h : db.selectActiveManagementForRent rid now = some m) :
    m.realty_id = rid ∧ m.is_active now = true := by
  unfold Db.selectActiveManagementForRent at h
  rw [List.findSome?_eq_some_iff] at h
  rcases h with ⟨l₁, a, l₂, hl, hf, hnone⟩
  rcases a with c | c | c | c | c <;> simp only [] at hf
  case ManagementForRent =>
    rcases hc : (c.realty_id == rid && c.is_active now) with _ | _
    · rw [hc] at hf
      simp at hf
    · rw [hc] at hf
      simp at hf
      simp at hc
      subst hf
      exact ⟨hc.1, hc.2⟩
  all_goals cases hf

/-- C3: in every successful `CreateRentContract` execution the insert of the
new `Rent` contract and the update that sets the authorizing
`ManagementForRent` contract's `terminated_at` to `Some(now)` both lie
inside the one transaction, after the single `StartTransaction` and before
the single `Commit` (the prefix holds only reads), and the persisted state
applies exactly both mutations; in every failing execution the trace holds
no `Commit`, so nothing — neither the insert nor the termination — is
persisted. -/
theorem C3_create_rent_atomic (cmd : command.CreateRentContract) (db : Db)
    (freshId : ContractId) (now : Instant) :
    (∀ c, (command.CreateRentContract.execute cmd db freshId now).1 =
        .ok c →
      ∃ (pre : List Op) (rid : RealtyId) (m : contract.ManagementForRent),
        (command.CreateRentContract.execute cmd db freshId now).2 =
          pre ++ rentTxOps c
            (Contract.ManagementForRent { m with terminated_at := some now })
            (Op.selectActiveManagementForRent rid) rid ∧
        pre.all (fun o =>
          !(o.isStartTransaction || o.isCommit || o.isMutation)) = true ∧
        m.is_active now = true ∧
        db.afterTrace
            (command.CreateRentContract.execute cmd db freshId now).2 =
          (db.upsertContract c).upsertContract
            (Contract.ManagementForRent
              { m with terminated_at := some now })) ∧
    (∀ e, (command.CreateRentContract.execute cmd db freshId now).1 =
        .error e →
      db.afterTrace (command.CreateRentContract.execute cmd db freshId now).2
        = db) := by
  rcases h1 : db.selectRealtyById cmd.realty_id with _ | realty
  · refine ⟨fun c hc => ?_, fun e he => ?_⟩
    · simp [command.CreateRentContract.execute, h1] at hc
    · simp [command.CreateRentContract.execute, h1, Db.afterTrace,
            committedMutations, Op.isCommit]
  rcases h2 : db.selectUserById cmd.employer_id with _ | employer
  · refine ⟨fun c hc => ?_, fun e he => ?_⟩
    · simp [command.CreateRentContract.execute, h1, h2] at hc
    · simp [command.CreateRentContract.execute, h1, h2, Db.afterTrace,
            committedMutations, Op.isCommit]
  rcases h3 : db.selectUserById cmd.purchaser_id with _ | purchaser
  · refine ⟨fun c hc => ?_, fun e he => ?_⟩
    · simp [command.CreateRentContract.execute, h1, h2, h3] at hc
    · simp [command.CreateRentContract.execute, h1, h2, h3, Db.afterTrace,
            committedMutations, Op.isCommit]
  rcases h4 : db.selectActiveEmployment cmd.employer_id now with _ | emp
  · refine ⟨fun c hc => ?_, fun e he => ?_⟩
    · simp [command.CreateRentContract.execute, h1, h2, h3, h4] at hc
    · simp [command.CreateRentContract.execute, h1, h2, h3, h4, Db.afterTrace,
            committedMutations, Op.isCommit]
  rcases h5 : db.selectActiveManagementForRent realty.id now with _ | m
  · refine ⟨fun c hc => ?_, fun e he => ?_⟩
    · simp [command.CreateRentContract.execute, h1, h2, h3, h4, h5] at hc
    · simp [command.CreateRentContract.execute, h1, h2, h3, h4, h5,
            Db.afterTrace, committedMutations, Op.isCommit]
  by_cases h6 : m.employer_id = cmd.employer_id
  · refine ⟨fun c hc => ?_, fun e he => ?_⟩
    · simp [command.CreateRentContract.execute, h1, h2, h3, h4, h5, h6]
        at hc
      refine ⟨[Op.selectRealtyById cmd.realty_id,
               Op.selectUsersByIds [cmd.employer_id, cmd.purchaser_id],
               Op.selectActiveEmployment cmd.employer_id],
              realty.id, m, ?_, ?_, (selectActiveMFR_sound _ _ _ _ h5).2, ?_⟩
      · simp [command.CreateRentContract.execute, h1, h2, h3, h4, h5, h6,
              rentTxOps, ← hc]
      · simp [Op.isStartTransaction, Op.isCommit, Op.isMutation]
      · simp [command.CreateRentContract.execute, h1, h2, h3, h4, h5, h6,
              Db.afterTrace, committedMutations, Op.isCommit, Op.isMutation,
              List.filter, Db.applyOp, ← hc]
    · simp [command.CreateRentContract.execute, h1, h2, h3, h4, h5, h6]
        at he
  · refine ⟨fun c hc => ?_, fun e he => ?_⟩
    · simp [command.CreateRentContract.execute, h1, h2, h3, h4, h5, h6]
        at hc
    · simp [command.CreateRentContract.execute, h1, h2, h3, h4, h5, h6,
            Db.afterTrace, committedMutations, Op.isCommit]

/-! Claim C10. -/

/-- Counterexample to C10: at the evaluation instant equal to `expires_at`
(both 5 here), `Contract::status()` returns `Active` (it compares with
`now > expires_at`) while `Contract::is_active()` returns `false` (it
requires `now < expires_at`), so the claimed equivalence — which claims the
two agree in particular at this instant — fails. -/
theorem C10_counterexample_boundary :
    c10Boundary.status 5 = contract.Status.Active ∧
    c10Boundary.is_active 5 = false := by
  exact ⟨rfl, rfl⟩

/-- C10 amended: `Contract::status()` returns `Active` iff
`Contract::is_active()` returns true at every evaluation instant other than
the one equal to `expires_at`; at that boundary instant (with
`terminated_at` unset) `status()` is `Active` while `is_active()` is
`false`. -/
theorem C10_amended_status_active_iff_is_active :
    ∀ (c : Contract) (now : Instant),
      (c.expires_at ≠ some now →
        (c.status now = contract.Status.Active ↔ c.is_active now = true)) ∧
      (c.terminated_at = none → c.expires_at = some now →
        c.status now = contract.Status.Active ∧ c.is_active now = false) := by
  intro c now
  constructor
  · intro hne
    rw [contract_is_active_eq]
    rcases hterm : c.terminated_at with _ | t0
    · rcases hexp : c.expires_at with _ | t
      · simp [Contract.status, hterm, hexp]
      · have htne : t ≠ now := by
          intro hc
          exact hne (by rw [hexp, hc])
        rcases Nat.lt_or_ge now t with hlt | hge
        · have hnot : ¬ t < now := Nat.not_lt.mpr (Nat.le_of_lt hlt)
          simp [Contract.status, hterm, hexp, hnot, hlt]
        · have hlt' : t < now := Nat.lt_of_le_of_ne hge htne
          simp [Contract.status, hterm, hexp, hlt', Nat.not_lt.mpr hge]
    · simp [Contract.status, hterm]
  · intro hterm hexp
    rw [contract_is_active_eq]
    simp [Contract.status, hterm, hexp]

/-- Witness for the amended C10 at concrete inputs: away from the boundary
(instant 3, expiration 5) the two derivations agree, and at the boundary
they split as described. -/
theorem C10_amended_witness :
    (c10Boundary.status 3 = contract.Status.Active ↔
      c10Boundary.is_active 3 = true) ∧
    (c10Boundary.status 5 = contract.Status.Active ∧
      c10Boundary.is_active 5 = false) := by
  refine ⟨(C10_amended_status_active_iff_is_active c10Boundary 3).1
            (by decide),
          (C10_amended_status_active_iff_is_active c10Boundary 5).2
            rfl rfl⟩

/-! Claim C9. -/

/-- C9: pagination `Arguments::new` rejects every ambiguous combination of
`first`/`after`/`last`/`before`: it returns `None` whenever both `first` and
`last` are given, and whenever both `after` and `before` are given with
different values; whenever `after = before` are both given and arguments are
produced, they are cursor-inclusive; and the bare `after = before`
combination (no `first`/`last`) yields a forward one-item inclusive page.
`Arguments::new` is a pure constructor in src/common/src/pagination.rs and
issues no storage operation. -/
theorem C9_pagination_arguments_new :
    (∀ (fv lv d : Int) (a b : Option Nat),
       pagination.Arguments.new (some fv) a (some lv) b d = none) ∧
    (∀ (f l : Option Int) (d : Int) (x y : Nat), x ≠ y →
       pagination.Arguments.new f (some x) l (some y) d = none) ∧
    (∀ (f l : Option Int) (d : Int) (x : Nat)
       (args : pagination.Arguments Nat),
       pagination.Arguments.new f (some x) l (some x) d = some args →
       args.kind.is_including = true) ∧
    (∀ (d : Int) (x : Nat),
       pagination.Arguments.new none (some x) none (some x) d =
         some (pagination.Arguments.Forward 1 (some x) true)) := by
  refine ⟨?_, ?_, ?_, ?_⟩
  · intro fv lv d a b
    cases a <;> cases b <;> rfl
  · intro f l d x y hxy
    cases f <;> cases l <;> simp [pagination.Arguments.new, hxy]
  · intro f l d x args h
    cases f <;> cases l <;>
      simp [pagination.Arguments.new, pagination.tryIntoUsize] at h
    · rw [← h]
      rfl
    · rcases h with ⟨hd, harg⟩
      rw [← harg]
      simp [pagination.Arguments.kind, pagination.Kind.is_including]
    · rcases h with ⟨hd, harg⟩
      rw [← harg]
      simp [pagination.Arguments.kind, pagination.Kind.is_including]
  · intro d x
    simp [pagination.Arguments.new]

/-- Witness for C9 at concrete inputs: `first` with `last` is rejected,
different `after`/`before` cursors are rejected, the combined
`after = before` form is inclusive, and the bare `after = before` form is a
one-item forward inclusive page. -/
theorem C9_pagination_arguments_new_witness :
    pagination.Arguments.new (some (3 : Int)) (some (7 : Nat)) (some 2)
      (some 9) 1 = none ∧
    pagination.Arguments.new (none : Option Int) (some (4 : Nat)) none
      (some 5) 1 = none ∧
    (pagination.Arguments.Forward 1 (some (5 : Nat)) true).kind.is_including
      = true ∧
    pagination.Arguments.new (none : Option Int) (some (5 : Nat)) none
      (some 5) 1 = some (pagination.Arguments.Forward 1 (some 5) true) := by
  refine ⟨C9_pagination_arguments_new.1 3 2 1 (some 7) (some 9),
          C9_pagination_arguments_new.2.1 none none 1 4 5 (by decide),
          C9_pagination_arguments_new.2.2.1 none none 1 5
            (pagination.Arguments.Forward 1 (some 5) true) (by decide),
          C9_pagination_arguments_new.2.2.2 1 5⟩

/-! Claim C3 witness. -/

/-- Witness for C3 at concrete inputs: executing `rentCmd` against `rentDb`
succeeds with the required transactional trace shape, and a failing
execution (absent realty) persists nothing. -/
theorem C3_create_rent_atomic_witness :
    (∃ (pre : List Op) (rid : RealtyId) (m : contract.ManagementForRent),
      (command.CreateRentContract.execute rentCmd rentDb 100 50).2 =
        pre ++ rentTxOps rentResult
          (Contract.ManagementForRent { m with terminated_at := some 50 })
          (Op.selectActiveManagementForRent rid) rid ∧
      pre.all (fun o =>
        !(o.isStartTransaction || o.isCommit || o.isMutation)) = true ∧
      m.is_active 50 = true ∧
      rentDb.afterTrace
          (command.CreateRentContract.execute rentCmd rentDb 100 50).2 =
        (rentDb.upsertContract rentResult).upsertContract
          (Contract.ManagementForRent
            { m with terminated_at := some 50 })) ∧
    rentDb.afterTrace
        (command.CreateRentContract.execute rentCmdMissing rentDb 100 50).2 =
      rentDb := by
  refine ⟨(C3_create_rent_atomic rentCmd rentDb 100 50).1 rentResult rfl,
          (C3_create_rent_atomic rentCmdMissing rentDb 100 50).2
            (.RealtyNotManaged 99) rfl⟩

/-! Claim C1. -/

/-- C1 evaluated at a concrete successful input: `CreateSaleContract`
against a realty under an active management-for-sale contract succeeds, but
the contract it builds, inserts and returns is the `Rent` variant
(`Contract::kind() = Rent`, not `Sale`): the source constructs
`contract::Rent` although the command's own documentation says it creates a
`contract::Sale`. -/
theorem C1_create_sale_constructs_rent_variant :
    (command.CreateSaleContract.execute saleCmd saleDb 100 50).1 =
      .ok saleResult ∧
    saleResult.kind = contract.Kind.Rent ∧
    ¬ saleResult.kind = contract.Kind.Sale := by
  refine ⟨rfl, rfl, by decide⟩

/-! Claim C6. -/

/-- Every failing `CreateSaleContract` execution commits nothing, so it
leaves the storage state unchanged. -/
theorem createSale_error_rollback (cmd : command.CreateSaleContract)
    (db : Db) (freshId : ContractId) (now : Instant)
    (e : command.CreateSaleError)
    (he : (command.CreateSaleContract.execute cmd db freshId now).1 =
      .error e) :
    db.afterTrace (command.CreateSaleContract.execute cmd db freshId now).2
      = db := by
  rcases h1 : db.selectRealtyById cmd.realty_id with _ | realty
  · simp [command.CreateSaleContract.execute, h1, Db.afterTrace,
          committedMutations, Op.isCommit]
  rcases h2 : db.selectUserById cmd.employer_id with _ | employer
  · simp [command.CreateSaleContract.execute, h1, h2, Db.afterTrace,
          committedMutations, Op.isCommit]
  rcases h3 : db.selectUserById cmd.purchaser_id with _ | purchaser
  · simp [command.CreateSaleContract.execute, h1, h2, h3, Db.afterTrace,
          committedMutations, Op.isCommit]
  rcases h4 : db.selectActiveEmployment cmd.employer_id now with _ | emp
  · simp [command.CreateSaleContract.execute, h1, h2, h3, h4, Db.afterTrace,
          committedMutations, Op.isCommit]
  rcases h5 : db.selectActiveManagementForSale realty.id now with _ | m
  · simp [command.CreateSaleContract.execute, h1, h2, h3, h4, h5,
          Db.afterTrace, committedMutations, Op.isCommit]
  by_cases h6 : m.employer_id = cmd.employer_id
  · rcases h7 : db.selectActiveManagementForRent realty.id now with _ | mr
    · cases h8 : db.isRented realty.id now
      · exfalso
        simp [command.CreateSaleContract.execute, h1, h2, h3, h4, h5, h6,
              h7, h8] at he
      · simp [command.CreateSaleContract.execute, h1, h2, h3, h4, h5, h6,
              h7, h8, Db.afterTrace, committedMutations, Op.isCommit]
    · simp [command.CreateSaleContract.execute, h1, h2, h3, h4, h5, h6, h7,
            Db.afterTrace, committedMutations, Op.isCommit]
  · simp [command.CreateSaleContract.execute, h1, h2, h3, h4, h5, h6,
          Db.afterTrace, committedMutations, Op.isCommit]

/-- C6: the `CreateSaleContract` rejection matrix.  Every failing execution
performs no persistent mutation, and each of the three claimed failures is
independently reachable: against a realty also under an active
management-for-rent contract the command fails with `RealtyManagedForRent`;
against a rented realty it fails with `RealtyRented`; against a realty with
no active management-for-sale contract it fails with `RealtyNotManaged`. -/
theorem C6_create_sale_rejection_matrix :
    (∀ (cmd : command.CreateSaleContract) (db : Db) (freshId : ContractId)
       (now : Instant) (e : command.CreateSaleError),
       (command.CreateSaleContract.execute cmd db freshId now).1 =
         .error e →
       db.afterTrace
           (command.CreateSaleContract.execute cmd db freshId now).2 =
         db) ∧
    (command.CreateSaleContract.execute saleCmd saleDbManagedForRent
        100 50).1 = .error (.RealtyManagedForRent 1) ∧
    (command.CreateSaleContract.execute saleCmd saleDbRented 100 50).1 =
      .error (.RealtyRented 1) ∧
    (command.CreateSaleContract.execute saleCmd saleDbNoMfs 100 50).1 =
      .error (.RealtyNotManaged 1) := by
  exact ⟨createSale_error_rollback, rfl, rfl, rfl⟩

/-- Witness for C6's universally quantified conjunct at a concrete input:
the failing `RealtyNotManaged` execution leaves the state unchanged. -/
theorem C6_create_sale_rejection_matrix_witness :
    saleDbNoMfs.afterTrace
        (command.CreateSaleContract.execute saleCmd saleDbNoMfs 100 50).2 =
      saleDbNoMfs := by
  exact C6_create_sale_rejection_matrix.1 saleCmd saleDbNoMfs 100 50
    (.RealtyNotManaged 1) rfl

/-! Claim C5. -/

/-- C5 evaluated at the racing interleaving the code allows: the
no-active-employment check of `CreateEmploymentContract` runs before the
transaction, with no lock and no re-validation inside it, so two concurrent
commands for user 3 can both evaluate their checks against the same
pre-commit state (`empDb`) and both pass; the transactional phase then
inserts unconditionally, and after both commits user 3 holds two active
employment contracts — neither command failed with `UserAlreadyEmployed`,
contradicting "exactly one succeeds". -/
theorem C5_employment_race_both_succeed :
    (command.CreateEmploymentContract.execute empCmd empDb 100 50).1 =
      .ok (command.CreateEmploymentContract.newContract empCmd 100 50) ∧
    command.CreateEmploymentContract.checks empCmd empDb 50 = .ok () ∧
    countActiveEmployments
        (command.CreateEmploymentContract.commitPhase
          (command.CreateEmploymentContract.execute empCmd empDb 100 50).2
          (command.CreateEmploymentContract.newContract empCmd 101 50))
        3 50 = 2 := by
  exact ⟨rfl, rfl, rfl⟩

/-! Claim C7. -/

/-- Counterexample to C7: a concrete successful `CreateUser` execution whose
trace selects by login, then opens the transaction, inserts and commits — so
the login-uniqueness pre-check is not placed between `StartTransaction` and
`Commit`, refuting "inside the transaction". -/
theorem C7_counterexample_login_check_outside_tx :
    (command.CreateUser.execute createUserCmd emptyDb 100 50).2 =
      [Op.selectUserByLogin "alice", Op.startTransaction,
       Op.insertUser
         { id := 100, name := "Alice", login := "alice",
           password_hash := command.passwordHash "pw",
           email := some "alice@example.com", phone := none,
           created_at := 50, deleted_at := none }, Op.commit] ∧
    loginSelectInsideTx
      (command.CreateUser.execute createUserCmd emptyDb 100 50).2 =
      false := by
  exact ⟨rfl, rfl⟩

/-- C7 amended: in every `CreateUser` execution the login-uniqueness
pre-check is performed before the transaction is opened, not inside it —
every login select of the trace precedes the first `StartTransaction`, and
in a successful execution the trace is exactly the login select followed by
the transaction wrapping only the `Insert` and the `Commit`. -/
theorem C7_amended_login_check_before_transaction
    (cmd : command.CreateUser) (db : Db) (freshId : UserId)
    (now : Instant) :
    ((((command.CreateUser.execute cmd db freshId now).2).takeWhile
        (fun o => !o.isStartTransaction)).filter isSelectUserByLogin =
      ((command.CreateUser.execute cmd db freshId now).2).filter
        isSelectUserByLogin) ∧
    (∀ u, (command.CreateUser.execute cmd db freshId now).1 = .ok u →
      (command.CreateUser.execute cmd db freshId now).2 =
        [Op.selectUserByLogin cmd.login, Op.startTransaction,
         Op.insertUser u, Op.commit]) := by
  cases hb : (cmd.email.isNone && cmd.phone.isNone)
  · rcases hsel : db.selectUserByLogin cmd.login with _ | u0
    · constructor
      · simp [command.CreateUser.execute, hb, hsel, List.takeWhile,
              List.filter, Op.isStartTransaction, isSelectUserByLogin]
      · intro u hu
        simp [command.CreateUser.execute, hb, hsel] at hu
        simp [command.CreateUser.execute, hb, hsel, ← hu]
    · constructor
      · simp [command.CreateUser.execute, hb, hsel, List.takeWhile,
              List.filter, Op.isStartTransaction, isSelectUserByLogin]
      · intro u hu
        simp [command.CreateUser.execute, hb, hsel] at hu
  · constructor
    · simp [command.CreateUser.execute, hb]
    · intro u hu
      simp [command.CreateUser.execute, hb] at hu

/-- Witness for the amended C7 at a concrete input: the successful scenario
execution keeps every login select before the transaction and its trace is
exactly select, start, insert, commit. -/
theorem C7_amended_witness :
    ((((command.CreateUser.execute createUserCmd emptyDb 100 50).2).takeWhile
        (fun o => !o.isStartTransaction)).filter isSelectUserByLogin =
      ((command.CreateUser.execute createUserCmd emptyDb 100 50).2).filter
        isSelectUserByLogin) ∧
    (command.CreateUser.execute createUserCmd emptyDb 100 50).2 =
      [Op.selectUserByLogin "alice", Op.startTransaction,
       Op.insertUser
         { id := 100, name := "Alice", login := "alice",
           password_hash := command.passwordHash "pw",
           email := some "alice@example.com", phone := none,
           created_at := 50, deleted_at := none }, Op.commit] := by
  refine ⟨(C7_amended_login_check_before_transaction createUserCmd emptyDb
            100 50).1,
          (C7_amended_login_check_before_transaction createUserCmd emptyDb
            100 50).2
            { id := 100, name := "Alice", login := "alice",
              password_hash := command.passwordHash "pw",
              email := some "alice@example.com", phone := none,
              created_at := 50, deleted_at := none } rfl⟩

/-! Claim C8. -/

/-- Counterexample to C8: terminating the already-terminated contract 7
fails with `ContractNotExists`, not with `ContractAlreadyTerminated` — the
pre-transaction select filters by `Contract::is_active`, which discards the
terminated contract, so the dedicated conflict variant is unreachable. -/
theorem C8_counterexample_not_exists_reported :
    (command.TerminateContract.execute termCmd termDb 50).1 =
      .error (.ContractNotExists 7) ∧
    ¬ (command.TerminateContract.execute termCmd termDb 50).1 =
      .error (.ContractAlreadyTerminated 7) := by
  have h1 : (command.TerminateContract.execute termCmd termDb 50).1 =
      .error (.ContractNotExists 7) := rfl
  refine ⟨h1, fun h => ?_⟩
  rw [h1] at h
  simp at h

/-- C8 amended: for every `TerminateContract` command whose initiator exists
and is an employer and whose target contract exists with `terminated_at`
already set, execution fails with the `ContractNotExists` error (the
`is_active` filter discards the terminated contract before the dead
`ContractAlreadyTerminated` check) and persists nothing, leaving the
contract unchanged. -/
theorem C8_amended_terminated_reports_not_exists
    (cmd : command.TerminateContract) (db : Db) (now : Instant) (u : User)
    (e : contract.Employment) (c : Contract)
    (hu : db.selectUserById cmd.initiator_id = some u)
    (he : db.selectActiveEmployment u.id now = some e)
    (hc : db.selectContractById cmd.contract_id = some c)
    (ht : (c.terminated_at).isSome = true) :
    (command.TerminateContract.execute cmd db now).1 =
      .error (.ContractNotExists cmd.contract_id) ∧
    db.afterTrace (command.TerminateContract.execute cmd db now).2 = db := by
  have hact : c.is_active now = false :=
    is_active_false_of_terminated c now ht
  have hfilter : (db.selectContractById cmd.contract_id).filter
      (fun x => x.is_active now) = none := by
    rw [hc]
    simp [Option.filter, hact]
  constructor
  · simp [command.TerminateContract.execute, hu, he, hfilter]
  · simp [command.TerminateContract.execute, hu, he, hfilter, Db.afterTrace,
          committedMutations, Op.isCommit]

/-- Witness for the amended C8 at a concrete input: contract 7 of `termDb`
is terminated, and the command reports `ContractNotExists` and changes
nothing. -/
theorem C8_amended_witness :
    (command.TerminateContract.execute termCmd termDb 50).1 =
      .error (.ContractNotExists 7) ∧
    termDb.afterTrace
      (command.TerminateContract.execute termCmd termDb 50).2 = termDb := by
  exact C8_amended_terminated_reports_not_exists termCmd termDb 50
    employerUser employerEmploymentRec terminatedRent rfl rfl rfl rfl

end Spec2Proof
